import Mathlib

/-!
Shallow embedding of the SippApp order-management core (SippApp/models.py,
SippApp/forms.py, SippApp/views.py) and proofs of its specified properties.

Conventions of the embedding:
* Django `DecimalField` values are modelled as `ℚ` (Python `Decimal`
  arithmetic is exact, so rationals are a faithful carrier).
* A nullable in-memory field that may be unset before the first save is
  modelled as `Option ℚ`; a persisted NOT NULL column is a plain `ℚ`.
* Python truthiness on a `Decimal` (`not x`) is: `None` is falsy and the
  value `0` is falsy; on a string, the empty string is falsy.
* `sum(...)` in Python is a left fold starting at `0`.
* Dates compare lexicographically on (year, month, day), as Python
  `datetime.date` does.
-/

/-- Python `sum` over a list of decimals: left fold with `+` from `0`. -/
def pySum (l : List ℚ) : ℚ := l.foldl (· + ·) 0

/-- `esSegmentoInicial sub l` : `sub` is an initial segment of `l`. -/
def esSegmentoInicial : List Char → List Char → Bool
  | [], _ => true
  | _ :: _, [] => false
  | a :: as, b :: bs => a == b && esSegmentoInicial as bs

/-- `esSublista sub l` : `sub` occurs as a contiguous sublist of `l`. -/
def esSublista (sub : List Char) : List Char → Bool
  | [] => esSegmentoInicial sub []
  | l@(_ :: rest) => esSegmentoInicial sub l || esSublista sub rest

/-- Django `icontains`: case-insensitive substring test
(`field icontains query`). -/
def icontains (campo consulta : String) : Bool :=
  esSublista (consulta.toList.map Char.toLower) (campo.toList.map Char.toLower)

/-- A calendar date, compared lexicographically like Python `datetime.date`. -/
structure Date where
  year : Nat
  month : Nat
  day : Nat
deriving DecidableEq

/-- Strict `<` on dates: lexicographic on (year, month, day). -/
def Date.lt (a b : Date) : Bool :=
  a.year < b.year ||
    (a.year == b.year &&
      (a.month < b.month || (a.month == b.month && a.day < b.day)))

/-- Specification-side notion: date `a` is strictly after date `b`. -/
def Date.StrictlyAfter (a b : Date) : Prop :=
  b.year < a.year ∨
    (b.year = a.year ∧ (b.month < a.month ∨ (b.month = a.month ∧ b.day < a.day)))

instance (a b : Date) : Decidable (Date.StrictlyAfter a b) := by
  unfold Date.StrictlyAfter; infer_instance

/-- `Cliente` (models.py): client with a budget and a budget-expiry date. -/
structure Cliente where
  nombre : String
  encargado : String
  presupuesto : ℚ
  email_contacto : String
  fecha_vencimiento_presupuesto : Date
deriving DecidableEq

/-- `Cliente.presupuesto_vencido` (models.py:27-30):
`timezone.now().date() > self.fecha_vencimiento_presupuesto`, with the
current date passed explicitly as `hoy`. -/
def Cliente.presupuesto_vencido (hoy : Date) (c : Cliente) : Bool :=
  Date.lt c.fecha_vencimiento_presupuesto hoy

/-- `CaracteristicaProductoHardware` (models.py:137-151): a key/value
characteristic owned by a product. -/
structure Caracteristica where
  attr : String
  valor : String
deriving DecidableEq

/-- `ProductoHardware.TIPO_PRODUCTO_CHOICES` (models.py:62-72). -/
def TIPO_PRODUCTO_CHOICES : List (String × String) :=
  [("switch", "Switch"), ("disco_duro", "Disco Duro"), ("ram", "RAM"),
   ("impresora", "Impresora"), ("teclado", "Teclado"), ("mouse", "Mouse"),
   ("ordenador", "Ordenador"), ("laptop", "Laptop"), ("otros", "Otros")]

/-- `ProductoHardware` (models.py:60-134), with its related
characteristics inlined (`related_name='caracteristicas'`). -/
structure ProductoHardware where
  id : Nat
  nombre : String
  tipo : String
  tipo_personalizado : String
  precio : ℚ
  empresa_proveedora : Option Nat
  categoria : Option Nat
  activo : Bool
  caracteristicas : List Caracteristica
deriving DecidableEq

/-- Django `get_tipo_display`: the label paired with the stored value in
`TIPO_PRODUCTO_CHOICES`; Django falls back to the raw value when the stored
value is not among the choices. -/
def get_tipo_display (tipo : String) : String :=
  ((TIPO_PRODUCTO_CHOICES.find? (fun c => c.1 == tipo)).map (·.2)).getD tipo

/-- `ProductoHardware.tipo_seleccion` (models.py:117-122): the custom text
when `tipo == 'otros'` and the text is non-empty (truthy), else the display
label. -/
def ProductoHardware.tipo_seleccion (p : ProductoHardware) : String :=
  if p.tipo = "otros" && p.tipo_personalizado ≠ "" then p.tipo_personalizado
  else get_tipo_display p.tipo

/-- `ProductoHardware.clean` (models.py:127-134): raises a
`ValidationError` scoped to `tipo_personalizado` when `tipo == 'otros'` and
the custom text is empty (falsy). -/
def ProductoHardware.clean (p : ProductoHardware) :
    Except (List (String × String)) Unit :=
  if p.tipo = "otros" && p.tipo_personalizado = "" then
    .error [("tipo_personalizado",
      "Debe especificar un tipo personalizado cuando selecciona \"Otros\"")]
  else .ok ()

/-- `ServicioInformatico` (models.py:154-196). -/
structure ServicioInformatico where
  id : Nat
  nombre : String
  duracion : Nat
  unidad_duracion : String
  descripcion : String
  precio : ℚ
  observaciones : String
  empresa_proveedora : Nat
  activo : Bool
deriving DecidableEq

/-- The snapshot step shared by both line-item `save` methods
(models.py:298-302 and 340-344): `if not self.precio_unitario:
self.precio_unitario = <catalog price>`. `none` (unset) and the value `0`
are both falsy in Python, so both are replaced by the catalog price. -/
def resolverPrecioUnitario (precioCatalogo : ℚ) : Option ℚ → ℚ
  | none => precioCatalogo
  | some q => if q = 0 then precioCatalogo else q

/-- `ItemProductoPedido` (models.py:263-302) as a persisted row
(`precio_unitario` is a NOT NULL column). -/
structure ItemProductoPedido where
  pedido : Nat
  producto : Nat
  cantidad : Nat
  precio_unitario : ℚ
deriving DecidableEq

/-- `ItemProductoPedido.subtotal` (models.py:294-296):
`self.cantidad * self.precio_unitario`, exact decimal arithmetic. -/
def ItemProductoPedido.subtotal (it : ItemProductoPedido) : ℚ :=
  (it.cantidad : ℚ) * it.precio_unitario

/-- `ItemProductoPedido.save` (models.py:298-302) applied to an already
persisted row, given its referenced product. -/
def ItemProductoPedido.save (prod : ProductoHardware)
    (it : ItemProductoPedido) : ItemProductoPedido :=
  { it with precio_unitario := resolverPrecioUnitario prod.precio (some it.precio_unitario) }

/-- `ItemServicioPedido` (models.py:305-344) as a persisted row. -/
structure ItemServicioPedido where
  pedido : Nat
  servicio : Nat
  cantidad : Nat
  precio_unitario : ℚ
deriving DecidableEq

/-- `ItemServicioPedido.subtotal` (models.py:336-338). -/
def ItemServicioPedido.subtotal (it : ItemServicioPedido) : ℚ :=
  (it.cantidad : ℚ) * it.precio_unitario

/-- `ItemServicioPedido.save` (models.py:340-344) applied to an already
persisted row, given its referenced service. -/
def ItemServicioPedido.save (serv : ServicioInformatico)
    (it : ItemServicioPedido) : ItemServicioPedido :=
  { it with precio_unitario := resolverPrecioUnitario serv.precio (some it.precio_unitario) }

/-- An `ItemProductoPedido` as constructed in memory before its first save:
`precio_unitario` may still be unset (`none`). -/
structure ItemProductoNuevo where
  pedido : Nat
  producto : Nat
  cantidad : Nat
  precio_unitario : Option ℚ
deriving DecidableEq

/-- An `ItemServicioPedido` as constructed in memory before its first save. -/
structure ItemServicioNuevo where
  pedido : Nat
  servicio : Nat
  cantidad : Nat
  precio_unitario : Option ℚ
deriving DecidableEq

/-- `Pedido` (models.py:214-260), with its two related line-item sets
inlined (`related_name='items_productos'` / `'items_servicios'`). -/
structure Pedido where
  id : Nat
  cliente : Nat
  estado : String
  observaciones : String
  items_productos : List ItemProductoPedido
  items_servicios : List ItemServicioPedido
deriving DecidableEq

/-- `Pedido.total_pedido` (models.py:251-260):
`sum(item.subtotal for item in items_productos) +
 sum(item.subtotal for item in items_servicios)`. -/
def Pedido.total_pedido (p : Pedido) : ℚ :=
  pySum (p.items_productos.map ItemProductoPedido.subtotal) +
    pySum (p.items_servicios.map ItemServicioPedido.subtotal)

/-- The cross-field data `ProductoHardwareForm.clean` works on
(`cleaned_data['tipo']`, `cleaned_data['tipo_personalizado']`). -/
structure ProductoFormDatos where
  tipo : String
  tipo_personalizado : String
deriving DecidableEq

/-- `ProductoHardwareForm.clean` (forms.py:151-165): adds a field error on
`tipo_personalizado` when `tipo == 'otros'` and the text is empty, and
silently clears the text when `tipo != 'otros'`. Returns the updated
`cleaned_data` together with the list of added field errors. -/
def ProductoHardwareForm.clean (d : ProductoFormDatos) :
    ProductoFormDatos × List (String × String) :=
  let errores :=
    if d.tipo = "otros" && d.tipo_personalizado = "" then
      [("tipo_personalizado",
        "Debe especificar un tipo personalizado cuando selecciona \"Otros\"")]
    else []
  let d' :=
    if d.tipo ≠ "otros" && d.tipo_personalizado ≠ "" then
      { d with tipo_personalizado := "" }
    else d
  (d', errores)

/-- `ProductoHardwareForm.clean_precio` (forms.py:167-172):
`if precio and precio <= 0: raise ValidationError(...)`. The Python
truthiness test `precio` is `False` for `None` and for the value `0`, so
the comparison only runs on non-zero values. -/
def ProductoHardwareForm.clean_precio (precio : Option ℚ) :
    Except String (Option ℚ) :=
  match precio with
  | none => .ok none
  | some q =>
      if q ≠ 0 && decide (q ≤ 0) then .error "El precio debe ser mayor a cero."
      else .ok (some q)

/-- `ServicioInformaticoForm.clean_precio` (forms.py:248-253): same body as
the product form's check. -/
def ServicioInformaticoForm.clean_precio (precio : Option ℚ) :
    Except String (Option ℚ) :=
  match precio with
  | none => .ok none
  | some q =>
      if q ≠ 0 && decide (q ≤ 0) then .error "El precio debe ser mayor a cero."
      else .ok (some q)

/-- The entity store: the persisted tables the claims touch. -/
structure EntityStore where
  productos : List ProductoHardware
  servicios : List ServicioInformatico
  itemsProductos : List ItemProductoPedido
  itemsServicios : List ItemServicioPedido
deriving DecidableEq

/-- Foreign-key resolution `self.producto` for a product id. -/
def findProducto (s : EntityStore) (pid : Nat) : Option ProductoHardware :=
  s.productos.find? (fun p => p.id == pid)

/-- Foreign-key resolution `self.servicio` for a service id. -/
def findServicio (s : EntityStore) (sid : Nat) : Option ServicioInformatico :=
  s.servicios.find? (fun sv => sv.id == sid)

/-- Updating a `ProductoHardware` row's price: an UPDATE on the `productos`
table only, as a Django model save writes only its own table. -/
def actualizarPrecioProducto (s : EntityStore) (pid : Nat) (nuevo : ℚ) :
    EntityStore :=
  { s with productos :=
      s.productos.map fun p => if p.id = pid then { p with precio := nuevo } else p }

/-- Updating a `ServicioInformatico` row's price: an UPDATE on the
`servicios` table only. -/
def actualizarPrecioServicio (s : EntityStore) (sid : Nat) (nuevo : ℚ) :
    EntityStore :=
  { s with servicios :=
      s.servicios.map fun sv => if sv.id = sid then { sv with precio := nuevo } else sv }

/-- First save of a new `ItemProductoPedido` (models.py:298-302): resolve
the referenced product, snapshot its price if the unit price is unset or
`0`, and INSERT the row. `none` when the foreign key does not resolve. -/
def crearItemProducto (s : EntityStore) (n : ItemProductoNuevo) :
    Option (EntityStore × ItemProductoPedido) :=
  (findProducto s n.producto).map fun prod =>
    let it : ItemProductoPedido :=
      { pedido := n.pedido, producto := n.producto, cantidad := n.cantidad,
        precio_unitario := resolverPrecioUnitario prod.precio n.precio_unitario }
    ({ s with itemsProductos := s.itemsProductos ++ [it] }, it)

/-- First save of a new `ItemServicioPedido` (models.py:340-344). -/
def crearItemServicio (s : EntityStore) (n : ItemServicioNuevo) :
    Option (EntityStore × ItemServicioPedido) :=
  (findServicio s n.servicio).map fun serv =>
    let it : ItemServicioPedido :=
      { pedido := n.pedido, servicio := n.servicio, cantidad := n.cantidad,
        precio_unitario := resolverPrecioUnitario serv.precio n.precio_unitario }
    ({ s with itemsServicios := s.itemsServicios ++ [it] }, it)

/-- The joined rows the product search condition is evaluated over: one row
per characteristic, or a single row with no characteristic when the product
has none (LEFT OUTER JOIN). -/
def filasBusqueda (p : ProductoHardware) : List (Option Caracteristica) :=
  if p.caracteristicas.isEmpty then [none] else p.caracteristicas.map some

/-- The search condition of `ProductoHardwareListView.get_queryset`
(views.py:272-278), evaluated on one joined row. -/
def coincideFila (q : String) (p : ProductoHardware) :
    Option Caracteristica → Bool
  | none => icontains p.nombre q || icontains p.tipo_personalizado q
  | some c =>
      icontains p.nombre q || icontains p.tipo_personalizado q ||
        icontains c.attr q || icontains c.valor q

/-- `ProductoHardwareListView.get_queryset` (views.py:257-280): filter on
`activo`, then the optional exact filters, then the search condition over
the joined rows followed by `.distinct()`. Empty-string parameters mean
"no filter", as the view reads them with `GET.get(..., '')`. -/
def get_queryset (productos : List ProductoHardware) (tipoF : String)
    (catF : Option Nat) (empF : Option Nat) (search : String) :
    List ProductoHardware :=
  let qs := productos.filter (·.activo)
  let qs := if tipoF ≠ "" then qs.filter (fun p => p.tipo == tipoF) else qs
  let qs := match catF with
    | some c => qs.filter (fun p => p.categoria == some c)
    | none => qs
  let qs := match empF with
    | some e => qs.filter (fun p => p.empresa_proveedora == some e)
    | none => qs
  if search ≠ "" then
    (qs.flatMap fun p =>
      ((filasBusqueda p).filter (coincideFila search p)).map (fun _ => p)).dedup
  else qs

/-! ## Helper lemmas -/

theorem foldl_add_from (a : ℚ) (l : List ℚ) : l.foldl (· + ·) a = a + l.sum := by
  induction l generalizing a with
  | nil => simp
  | cons x xs ih => simp only [List.foldl_cons, List.sum_cons, ih]; ring

theorem pySum_eq_sum (l : List ℚ) : pySum l = l.sum := by
  simp [pySum, foldl_add_from]

/-! ## Claim theorems -/

/-- C1: for every `Pedido`, `total_pedido` equals the sum of the subtotals
of its product line items plus the sum of the subtotals of its service line
items, and an order with zero line items has total `0`. -/
theorem total_pedido_correcto (p : Pedido) :
    p.total_pedido =
      (p.items_productos.map ItemProductoPedido.subtotal).sum +
        (p.items_servicios.map ItemServicioPedido.subtotal).sum ∧
    (p.items_productos = [] → p.items_servicios = [] → p.total_pedido = 0) := by
  constructor
  · simp [Pedido.total_pedido, pySum_eq_sum]
  · intro h1 h2
    simp [Pedido.total_pedido, h1, h2, pySum]

theorem total_pedido_correcto_witness :
    Pedido.total_pedido ⟨1, 1, "pendiente", "", [], []⟩ = 0 :=
  (total_pedido_correcto ⟨1, 1, "pendiente", "", [], []⟩).2 rfl rfl

/-- C2: for every line item, `subtotal` equals `cantidad * precio_unitario`
with exact decimal arithmetic; in particular quantity 3 at unit price 19.99
gives exactly 59.97. -/
theorem subtotal_exacto :
    (∀ it : ItemProductoPedido,
      it.subtotal = (it.cantidad : ℚ) * it.precio_unitario) ∧
    (∀ it : ItemServicioPedido,
      it.subtotal = (it.cantidad : ℚ) * it.precio_unitario) ∧
    ItemProductoPedido.subtotal ⟨1, 1, 3, (1999 : ℚ) / 100⟩ = (5997 : ℚ) / 100 ∧
    ItemServicioPedido.subtotal ⟨1, 1, 3, (1999 : ℚ) / 100⟩ = (5997 : ℚ) / 100 := by
  refine ⟨fun _ => rfl, fun _ => rfl, ?_, ?_⟩ <;>
    norm_num [ItemProductoPedido.subtotal, ItemServicioPedido.subtotal]

/-- C4: `presupuesto_vencido` holds iff today is strictly after the budget
expiry date; when today equals the expiry date it is `false`. -/
theorem presupuesto_vencido_correcto (c : Cliente) (hoy : Date) :
    (c.presupuesto_vencido hoy = true ↔
      Date.StrictlyAfter hoy c.fecha_vencimiento_presupuesto) ∧
    (hoy = c.fecha_vencimiento_presupuesto →
      c.presupuesto_vencido hoy = false) := by
  constructor
  · simp [Cliente.presupuesto_vencido, Date.lt, Date.StrictlyAfter]
  · intro h
    subst h
    simp [Cliente.presupuesto_vencido, Date.lt]

theorem presupuesto_vencido_correcto_witness :
    Cliente.presupuesto_vencido ⟨2024, 5, 17⟩
      ⟨"ACME", "Eva", 100, "eva@acme.test", ⟨2024, 5, 17⟩⟩ = false :=
  (presupuesto_vencido_correcto
    ⟨"ACME", "Eva", 100, "eva@acme.test", ⟨2024, 5, 17⟩⟩ ⟨2024, 5, 17⟩).2 rfl

/-- C5: behaviour of the form-level price checks at the boundary: a price
of exactly `0` is NOT rejected (the Python truthiness guard `if precio and
precio <= 0` skips the comparison for `0`), while negative prices are
rejected with the "must be greater than zero" message. -/
theorem clean_precio_acepta_cero :
    ProductoHardwareForm.clean_precio (some 0) = .ok (some 0) ∧
    ServicioInformaticoForm.clean_precio (some 0) = .ok (some 0) ∧
    ProductoHardwareForm.clean_precio (some (-1)) =
      .error "El precio debe ser mayor a cero." ∧
    ServicioInformaticoForm.clean_precio (some (-1)) =
      .error "El precio debe ser mayor a cero." := by
  refine ⟨?_, ?_, ?_, ?_⟩ <;> rfl

/-- C10: for a product whose `tipo` is not `'otros'`, `tipo_seleccion` is
the display label of `tipo` (any stored custom text is ignored); for
`tipo = 'otros'` with empty custom text it is the label `"Otros"`. -/
theorem tipo_seleccion_etiqueta (p : ProductoHardware) :
    (p.tipo ≠ "otros" → p.tipo_seleccion = get_tipo_display p.tipo) ∧
    (p.tipo = "otros" → p.tipo_personalizado = "" →
      p.tipo_seleccion = "Otros") := by
  constructor
  · intro h
    simp [ProductoHardware.tipo_seleccion, h]
  · intro h1 h2
    simp [ProductoHardware.tipo_seleccion, h1, h2, get_tipo_display,
      TIPO_PRODUCTO_CHOICES]

theorem tipo_seleccion_etiqueta_witness :
    ProductoHardware.tipo_seleccion
      ⟨1, "N1", "laptop", "texto", 10, none, none, true, []⟩ = "Laptop" ∧
    ProductoHardware.tipo_seleccion
      ⟨2, "N2", "otros", "", 10, none, none, true, []⟩ = "Otros" :=
  ⟨(tipo_seleccion_etiqueta
      ⟨1, "N1", "laptop", "texto", 10, none, none, true, []⟩).1 (by decide),
   (tipo_seleccion_etiqueta
      ⟨2, "N2", "otros", "", 10, none, none, true, []⟩).2 rfl rfl⟩

/-- C6: with `tipo = 'otros'` and empty custom text, both the model-level
and form-level validations fail with an error scoped to
`tipo_personalizado` carrying a human-readable message; with `tipo =
'otros'` and custom text `"Router Mesh"` both pass and `tipo_seleccion`
returns `"Router Mesh"`. -/
theorem validacion_tipo_otros :
    (∀ p : ProductoHardware, p.tipo = "otros" → p.tipo_personalizado = "" →
      p.clean = .error [("tipo_personalizado",
        "Debe especificar un tipo personalizado cuando selecciona \"Otros\"")]) ∧
    (∀ d : ProductoFormDatos, d.tipo = "otros" → d.tipo_personalizado = "" →
      (ProductoHardwareForm.clean d).2 = [("tipo_personalizado",
        "Debe especificar un tipo personalizado cuando selecciona \"Otros\"")]) ∧
    (∀ p : ProductoHardware, p.tipo = "otros" →
      p.tipo_personalizado = "Router Mesh" →
      p.clean = .ok () ∧ p.tipo_seleccion = "Router Mesh") ∧
    (∀ d : ProductoFormDatos, d.tipo = "otros" →
      d.tipo_personalizado = "Router Mesh" →
      (ProductoHardwareForm.clean d).2 = []) := by
  refine ⟨?_, ?_, ?_, ?_⟩
  · intro p h1 h2
    simp [ProductoHardware.clean, h1, h2]
  · intro d h1 h2
    simp [ProductoHardwareForm.clean, h1, h2]
  · intro p h1 h2
    constructor
    · simp [ProductoHardware.clean, h1, h2]
    · simp [ProductoHardware.tipo_seleccion, h1, h2]
  · intro d h1 h2
    simp [ProductoHardwareForm.clean, h1, h2]

theorem validacion_tipo_otros_witness :
    ProductoHardware.clean ⟨1, "N", "otros", "", 5, none, none, true, []⟩ =
      .error [("tipo_personalizado",
        "Debe especificar un tipo personalizado cuando selecciona \"Otros\"")] ∧
    ProductoHardware.clean
        ⟨1, "N", "otros", "Router Mesh", 5, none, none, true, []⟩ = .ok () ∧
    ProductoHardware.tipo_seleccion
        ⟨1, "N", "otros", "Router Mesh", 5, none, none, true, []⟩ =
      "Router Mesh" ∧
    (ProductoHardwareForm.clean ⟨"otros", ""⟩).2 = [("tipo_personalizado",
        "Debe especificar un tipo personalizado cuando selecciona \"Otros\"")] :=
  ⟨validacion_tipo_otros.1 _ rfl rfl,
   (validacion_tipo_otros.2.2.1 _ rfl rfl).1,
   (validacion_tipo_otros.2.2.1
      ⟨1, "N", "otros", "Router Mesh", 5, none, none, true, []⟩ rfl rfl).2,
   validacion_tipo_otros.2.1 ⟨"otros", ""⟩ rfl rfl⟩

/-- C7: for any `tipo` other than `'otros'`, validation passes even with a
non-empty custom text: the model-level `clean` raises nothing, the
form-level `clean` adds no error, and the form-level normalization clears
the custom text to the empty string. -/
theorem tipo_no_otros_normaliza :
    (∀ d : ProductoFormDatos, d.tipo ≠ "otros" →
      (ProductoHardwareForm.clean d).2 = [] ∧
      (ProductoHardwareForm.clean d).1.tipo_personalizado = "") ∧
    (∀ p : ProductoHardware, p.tipo ≠ "otros" → p.clean = .ok ()) := by
  constructor
  · intro d h
    constructor
    · simp [ProductoHardwareForm.clean, h]
    · by_cases hv : d.tipo_personalizado = ""
      · simp [ProductoHardwareForm.clean, h, hv]
      · simp [ProductoHardwareForm.clean, h, hv]
  · intro p h
    simp [ProductoHardware.clean, h]

theorem tipo_no_otros_normaliza_witness :
    (ProductoHardwareForm.clean ⟨"laptop", "ignored"⟩).2 = [] ∧
    (ProductoHardwareForm.clean ⟨"laptop", "ignored"⟩).1.tipo_personalizado
      = "" ∧
    ProductoHardware.clean
      ⟨1, "N", "laptop", "ignored", 5, none, none, true, []⟩ = .ok () :=
  ⟨(tipo_no_otros_normaliza.1 ⟨"laptop", "ignored"⟩ (by decide)).1,
   (tipo_no_otros_normaliza.1 ⟨"laptop", "ignored"⟩ (by decide)).2,
   tipo_no_otros_normaliza.2 _ (by decide)⟩

/-- C3: saving a line item whose unit price is unset copies the referenced
product's (or service's) current price into `precio_unitario`, and a later
update of the product's (or service's) price writes only the catalog table,
leaving every already-saved line-item row unchanged. -/
theorem precio_snapshot :
    (∀ (s : EntityStore) (n : ItemProductoNuevo) (prod : ProductoHardware)
        (s' : EntityStore) (it : ItemProductoPedido),
      findProducto s n.producto = some prod →
      n.precio_unitario = none →
      crearItemProducto s n = some (s', it) →
      it.precio_unitario = prod.precio ∧
        ∀ (pid : Nat) (nuevo : ℚ),
          (actualizarPrecioProducto s' pid nuevo).itemsProductos =
            s'.itemsProductos) ∧
    (∀ (s : EntityStore) (n : ItemServicioNuevo) (serv : ServicioInformatico)
        (s' : EntityStore) (it : ItemServicioPedido),
      findServicio s n.servicio = some serv →
      n.precio_unitario = none →
      crearItemServicio s n = some (s', it) →
      it.precio_unitario = serv.precio ∧
        ∀ (sid : Nat) (nuevo : ℚ),
          (actualizarPrecioServicio s' sid nuevo).itemsServicios =
            s'.itemsServicios) := by
  constructor
  · intro s n prod s' it hf hn hc
    simp only [crearItemProducto, hf, Option.map_some', Option.some.injEq,
      Prod.mk.injEq] at hc
    obtain ⟨hs, hit⟩ := hc
    subst hs hit
    constructor
    · simp [hn, resolverPrecioUnitario]
    · intro pid nuevo
      simp [actualizarPrecioProducto]
  · intro s n serv s' it hf hn hc
    simp only [crearItemServicio, hf, Option.map_some', Option.some.injEq,
      Prod.mk.injEq] at hc
    obtain ⟨hs, hit⟩ := hc
    subst hs hit
    constructor
    · simp [hn, resolverPrecioUnitario]
    · intro sid nuevo
      simp [actualizarPrecioServicio]

theorem precio_snapshot_witness :
    ItemProductoPedido.precio_unitario ⟨1, 7, 2, 5⟩ = 5 ∧
    (actualizarPrecioProducto
      ⟨[⟨7, "Disco", "disco_duro", "", 5, none, none, true, []⟩], [],
        [⟨1, 7, 2, 5⟩], []⟩ 7 9).itemsProductos = [⟨1, 7, 2, 5⟩] :=
  precio_snapshot.1
    ⟨[⟨7, "Disco", "disco_duro", "", 5, none, none, true, []⟩], [], [], []⟩
    ⟨1, 7, 2, none⟩
    ⟨7, "Disco", "disco_duro", "", 5, none, none, true, []⟩
    ⟨[⟨7, "Disco", "disco_duro", "", 5, none, none, true, []⟩], [],
      [⟨1, 7, 2, 5⟩], []⟩
    ⟨1, 7, 2, 5⟩ rfl rfl rfl |>.imp id (fun h => h 7 9)

/-- C9: a stored unit price of exactly `0` is falsy for the snapshot guard,
so every save (first or later) replaces it with the referenced product's or
service's current catalog price; an explicitly chosen unit price of `0`
therefore never survives a save. -/
theorem precio_cero_se_reemplaza :
    (∀ (it : ItemProductoPedido) (prod : ProductoHardware),
      it.precio_unitario = 0 → (it.save prod).precio_unitario = prod.precio) ∧
    (∀ (it : ItemServicioPedido) (serv : ServicioInformatico),
      it.precio_unitario = 0 → (it.save serv).precio_unitario = serv.precio) ∧
    (∀ (s : EntityStore) (n : ItemProductoNuevo) (prod : ProductoHardware)
        (s' : EntityStore) (it : ItemProductoPedido),
      n.precio_unitario = some 0 →
      findProducto s n.producto = some prod →
      crearItemProducto s n = some (s', it) →
      it.precio_unitario = prod.precio) ∧
    (∀ (s : EntityStore) (n : ItemServicioNuevo) (serv : ServicioInformatico)
        (s' : EntityStore) (it : ItemServicioPedido),
      n.precio_unitario = some 0 →
      findServicio s n.servicio = some serv →
      crearItemServicio s n = some (s', it) →
      it.precio_unitario = serv.precio) ∧
    (∀ (it : ItemProductoPedido) (prod prod' : ProductoHardware),
      it.precio_unitario = 0 → prod.precio = 0 →
      ((it.save prod).save prod').precio_unitario = prod'.precio) := by
  refine ⟨?_, ?_, ?_, ?_, ?_⟩
  · intro it prod h
    simp [ItemProductoPedido.save, resolverPrecioUnitario, h]
  · intro it serv h
    simp [ItemServicioPedido.save, resolverPrecioUnitario, h]
  · intro s n prod s' it hn hf hc
    simp only [crearItemProducto, hf, Option.map_some', Option.some.injEq,
      Prod.mk.injEq] at hc
    obtain ⟨hs, hit⟩ := hc
    subst hit
    simp [hn, resolverPrecioUnitario]
  · intro s n serv s' it hn hf hc
    simp only [crearItemServicio, hf, Option.map_some', Option.some.injEq,
      Prod.mk.injEq] at hc
    obtain ⟨hs, hit⟩ := hc
    subst hit
    simp [hn, resolverPrecioUnitario]
  · intro it prod prod' h hp
    simp [ItemProductoPedido.save, resolverPrecioUnitario, h, hp]

theorem precio_cero_se_reemplaza_witness :
    (ItemProductoPedido.save
      ⟨7, "Disco", "disco_duro", "", 5, none, none, true, []⟩
      ⟨1, 7, 2, 0⟩).precio_unitario = 5 ∧
    (ItemServicioPedido.save
      ⟨3, "Backup", 2, "horas", "", 8, "", 1, true⟩
      ⟨1, 3, 4, 0⟩).precio_unitario = 8 ∧
    ItemProductoPedido.precio_unitario ⟨1, 7, 2, 5⟩ = 5 ∧
    ((ItemProductoPedido.save
        ⟨7, "Disco", "disco_duro", "", 0, none, none, true, []⟩
        ⟨1, 7, 2, 0⟩).save
      ⟨7, "Disco", "disco_duro", "", 9, none, none, true, []⟩).precio_unitario
      = 9 :=
  ⟨precio_cero_se_reemplaza.1 ⟨1, 7, 2, 0⟩
      ⟨7, "Disco", "disco_duro", "", 5, none, none, true, []⟩ rfl,
   precio_cero_se_reemplaza.2.1 ⟨1, 3, 4, 0⟩
      ⟨3, "Backup", 2, "horas", "", 8, "", 1, true⟩ rfl,
   precio_cero_se_reemplaza.2.2.1
      ⟨[⟨7, "Disco", "disco_duro", "", 5, none, none, true, []⟩], [], [], []⟩
      ⟨1, 7, 2, some 0⟩
      ⟨7, "Disco", "disco_duro", "", 5, none, none, true, []⟩
      ⟨[⟨7, "Disco", "disco_duro", "", 5, none, none, true, []⟩], [],
        [⟨1, 7, 2, 5⟩], []⟩
      ⟨1, 7, 2, 5⟩ rfl rfl rfl,
   precio_cero_se_reemplaza.2.2.2.2 ⟨1, 7, 2, 0⟩
      ⟨7, "Disco", "disco_duro", "", 0, none, none, true, []⟩
      ⟨7, "Disco", "disco_duro", "", 9, none, none, true, []⟩ rfl rfl⟩

/-- C8: a product search for a non-empty string that a characteristic's
attribute or value contains (case-insensitively) returns the product even
when its name does not match, and the product appears exactly once in the
result even if several of its characteristics match. -/
theorem busqueda_por_caracteristica
    (productos : List ProductoHardware) (p : ProductoHardware)
    (q : String) (c : Caracteristica)
    (hq : q ≠ "") (hp : p ∈ productos) (hact : p.activo = true)
    (_hnombre : icontains p.nombre q = false)
    (hc : c ∈ p.caracteristicas)
    (hm : icontains c.attr q = true ∨ icontains c.valor q = true) :
    (get_queryset productos "" none none q).count p = 1 := by
  have hfilter : p ∈ productos.filter (·.activo) :=
    List.mem_filter.mpr ⟨hp, hact⟩
  have hrowmem : (some c) ∈ filasBusqueda p := by
    rcases hcs : p.caracteristicas with _ | ⟨a, as⟩
    · rw [hcs] at hc
      cases hc
    · have hc' : c ∈ a :: as := hcs ▸ hc
      unfold filasBusqueda
      rw [hcs]
      simpa using List.mem_map_of_mem some hc'
  have hcond : coincideFila q p (some c) = true := by
    rcases hm with h | h <;> simp [coincideFila, h]
  have hLmem : p ∈ (productos.filter (·.activo)).flatMap
      (fun p' => ((filasBusqueda p').filter (coincideFila q p')).map
        (fun _ => p')) :=
    List.mem_flatMap.mpr
      ⟨p, hfilter,
        List.mem_map.mpr ⟨some c, List.mem_filter.mpr ⟨hrowmem, hcond⟩, rfl⟩⟩
  have hred : get_queryset productos "" none none q =
      if q ≠ "" then
        ((productos.filter (·.activo)).flatMap fun p' =>
          ((filasBusqueda p').filter (coincideFila q p')).map
            fun _ => p').dedup
      else productos.filter (·.activo) := rfl
  rw [hred, if_pos hq]
  exact List.count_eq_one_of_mem (List.nodup_dedup _)
    (List.mem_dedup.mpr hLmem)

theorem busqueda_por_caracteristica_witness :
    (get_queryset
      [⟨1, "Alpha", "ram", "", 10, none, none, true,
        [⟨"Capacidad", "1TB"⟩, ⟨"Velocidad", "7200 RPM"⟩]⟩]
      "" none none "1tb").count
      ⟨1, "Alpha", "ram", "", 10, none, none, true,
        [⟨"Capacidad", "1TB"⟩, ⟨"Velocidad", "7200 RPM"⟩]⟩ = 1 :=
  busqueda_por_caracteristica _ _ "1tb" ⟨"Capacidad", "1TB"⟩
    (by decide) (by simp) rfl (by decide) (by simp)
    (Or.inr (by decide))
